import Mathlib

/-!
Verification of the RAG SQL engine of the TSM-SALLY backend
(`backend/services/rag_sql_service.py`, class `RAGSQLService`).

The service's pure logic is embedded shallowly:
* Python strings are Lean `String`s; the Python string primitives used by
  the service (`in`, `.lower()`, `.upper()`, `.strip()`, `.replace()`,
  `.join()`) are modelled over the character list `String.data` by
  `strContains`, `pyLower`, `pyUpper`, `pyStrip`, `pyReplace`, `joinSep`,
  matching Python semantics on the ASCII text the service handles.
* The two external effects — the LLM completion call and the database
  fetch — are passed in as oracle values/functions: the outcome of the
  single completion call is an `Except` value, and the database is a
  function from SQL text to either an error message (a raised exception's
  text) or a list of rows.
* A raised `ValueError` in `validate_sql` is modelled as `Option String`
  (`some msg` = raised with message `msg`, `none` = returned normally).
* `generate_and_execute_sql` additionally returns a `ConnTrace` recording
  whether `asyncpg.connect` and `conn.close()` were reached on the taken
  path, to reason about connection lifetime.
-/

set_option maxRecDepth 100000

namespace RagSql

/-- Single-quote character, used by the Python f-strings `{key} = '{value}'`. -/
def sq : String := String.singleton (Char.ofNat 39)

/-- Python's substring test `pat in s`. -/
def strContains (s pat : String) : Bool := decide (pat.data <:+: s.data)

/-- Python's `s.lower()` (ASCII). -/
def pyLower (s : String) : String := ⟨s.data.map Char.toLower⟩

/-- Python's `s.upper()` (ASCII). -/
def pyUpper (s : String) : String := ⟨s.data.map Char.toUpper⟩

/-- Python's `s.strip()` with no argument: drop leading and trailing
whitespace. -/
def pyStrip (s : String) : String :=
  ⟨((s.data.dropWhile Char.isWhitespace).reverse.dropWhile Char.isWhitespace).reverse⟩

/-- Left-to-right, non-overlapping replacement of `pat` by `rep`, with
explicit fuel (one unit per examined position; `l.length` suffices for a
non-empty `pat`). -/
def replaceFuel (pat rep : List Char) : Nat → List Char → List Char
  | _, [] => []
  | 0, l => l
  | fuel + 1, c :: cs =>
    if pat.isPrefixOf (c :: cs) then
      rep ++ replaceFuel pat rep fuel ((c :: cs).drop pat.length)
    else c :: replaceFuel pat rep fuel cs

/-- Python's `s.replace(pat, rep)` for a non-empty `pat` (the service only
replaces the markdown fences, which are non-empty). -/
def pyReplace (s pat rep : String) : String :=
  ⟨replaceFuel pat.data rep.data s.data.length s.data⟩

/-- Python's `sep.join(parts)`. -/
def joinSep (sep : String) : List String → String
  | [] => ""
  | [x] => x
  | x :: xs => x ++ sep ++ joinSep sep xs

/-- Scalar cell values appearing in result rows. -/
inductive Value where
  | str (s : String)
  | int (n : Int)
  | bool (b : Bool)
deriving DecidableEq

/-- A result row: an ordered name-to-value mapping (`dict(row)`). -/
def Row : Type := List (String × Value)

instance : DecidableEq Row := by unfold Row; infer_instance

/-- Scalar filter values: Python strings are quoted by the generator, any
other scalar is interpolated via `str(value)` (modelled for integers). -/
inductive FilterValue where
  | s (v : String)
  | n (v : Int)
deriving DecidableEq

/-- Render one filter the way `_generate_sql_pattern_based` does:
`f"{key} = '{value}'"` for strings, `f"{key} = {value}"` otherwise. -/
def renderFilter : String × FilterValue → String
  | (k, .s v) => k ++ " = " ++ sq ++ v ++ sq
  | (k, .n v) => k ++ " = " ++ toString v

/-- Deny list of `validate_sql`, in source order
(`dangerous_operations` in the Python). -/
def dangerous_operations : List String :=
  ["drop", "truncate", "delete", "update", "alter", "create", "insert"]

/-- `RAGSQLService.validate_sql`: returns `some message` when the Python
raises `ValueError(message)`, `none` when it accepts.  The middle block of
the source (the `gold_` prefix scan over the `from `/`join ` keywords)
ends in `pass` on every branch and has no effect, so it contributes
nothing here. -/
def validate_sql (sql : String) : Option String :=
  let sql_lower := pyLower sql
  match dangerous_operations.find? (fun op => strContains sql_lower op) with
  | some op => some ("SQL contains forbidden operation: " ++ pyUpper op)
  | none =>
    if strContains sql_lower "select" then none
    else some "SQL must be a SELECT query"

/-- Leading part of the `study` archetype template of
`_generate_sql_pattern_based`, up to `WHERE `. -/
def studySqlPre : String :=
  "\n                SELECT \n                    s.study_id,\n                    s.study_name,\n                    s.study_phase,\n                    s.status,\n                    COUNT(DISTINCT cs.site_id) as total_sites,\n                    COUNT(DISTINCT subj.subject_id) as total_subjects\n                FROM gold_global_studies s\n                LEFT JOIN gold_clinical_sites cs ON s.study_id = cs.study_id\n                LEFT JOIN gold_subjects subj ON s.study_id = subj.study_id\n                WHERE "

/-- Trailing part of the `study` archetype template, after the
interpolated `where_clause`. -/
def studySqlPost : String :=
  "\n                GROUP BY s.study_id, s.study_name, s.study_phase, s.status\n                ORDER BY s.study_name\n                LIMIT 100\n            "

/-- Leading part of the default (generic sites) template of
`_generate_sql_pattern_based`, up to `WHERE `. -/
def defaultSqlPre : String :=
  "\n            SELECT \n                cs.site_id,\n                cs.site_name,\n                cs.country,\n                cs.status,\n                COUNT(i.inventory_id) as inventory_items\n            FROM gold_clinical_sites cs\n            LEFT JOIN gold_inventory i ON cs.site_id = i.site_id\n            WHERE "

/-- Trailing part of the default template, after the interpolated
`where_clause`. -/
def defaultSqlPost : String :=
  "\n            GROUP BY cs.site_id, cs.site_name, cs.country, cs.status\n            LIMIT 100\n        "

/-- `RAGSQLService._generate_sql_pattern_based` (Lean names may not start
with an underscore, hence the dropped `_`). -/
def generate_sql_pattern_based (question : String)
    (filters : List (String × FilterValue)) : String :=
  let question_lower := pyLower question
  let where_conditions := "1=1" :: filters.map renderFilter
  let where_clause := joinSep " AND " where_conditions
  if strContains question_lower "study" || strContains question_lower "studies" then
    studySqlPre ++ where_clause ++ studySqlPost
  else
    defaultSqlPre ++ where_clause ++ defaultSqlPost

/-- `RAGSQLService._generate_demo_sql`. -/
def generate_demo_sql (_question : String)
    (_filters : List (String × FilterValue)) : String :=
  "\n            SELECT \n                " ++ sq ++ "DEMO-001" ++ sq ++ " as id,\n                "
    ++ sq ++ "Demo Result" ++ sq ++ " as name,\n                "
    ++ sq ++ "This is demo mode data" ++ sq
    ++ " as description,\n                100 as value,\n                CURRENT_DATE as date\n        "

/-- `RAGSQLService._generate_sql_with_llm`.  The single
`self.model.generate_content(prompt)` call is the oracle `resp`: `.ok t`
stands for a completion whose `.text` is `t`, `.error ()` for any raised
exception (API failure, timeout, missing text).  On success the code
strips markdown fencing; on exception it falls back to the pattern-based
generator.  The prompt text itself only feeds the oracle and cannot alter
the control flow, so it is not reproduced. -/
def generate_sql_with_llm (resp : Except Unit String) (question : String)
    (filters : List (String × FilterValue)) : String :=
  match resp with
  | .ok text => pyStrip (pyReplace (pyReplace (pyStrip text) "```sql" "") "```" "")
  | .error _ => generate_sql_pattern_based question filters

/-- `RAGSQLService.generate_sql`.  `llm = none` models
`self.llm_enabled == False`; `llm = some resp` models an enabled LLM whose
one completion call has outcome `resp`. -/
def generate_sql (llm : Option (Except Unit String)) (question mode : String)
    (filters : List (String × FilterValue)) : String :=
  if mode == "demo" then generate_demo_sql question filters
  else
    match llm with
    | some resp => generate_sql_with_llm resp question filters
    | none => generate_sql_pattern_based question filters

/-- Result dictionary of `generate_and_execute_sql` (the optional
`timestamp` key of the success branch is not modelled). -/
structure ExecResult where
  rows : List Row
  row_count : Nat
  query_used : String
  mode : String
  error : Option String
deriving DecidableEq

/-- Which connection events the taken path of `generate_and_execute_sql`
reached: `opened` iff `asyncpg.connect(database_url)` ran, `closed` iff
`conn.close()` ran. -/
structure ConnTrace where
  opened : Bool
  closed : Bool
deriving DecidableEq

/-- The mock row of the demo branch. -/
def demoRow : Row :=
  [("demo", Value.bool true), ("message", Value.str "Demo data response")]

/-- `RAGSQLService.generate_and_execute_sql`.  `db sql` is the outcome of
`await conn.fetch(sql)`: `.ok rows` a fetched row list, `.error e` a
raised exception with text `e`.  `database_url` is
`os.getenv("DATABASE_URL")`; `asyncpg.connect` is modelled as succeeding
whenever a URL is configured, the fetch oracle carrying every
database-level failure.  Mirrors the source: generate, validate (on
rejection return the `ValueError` text as `error`), demo shortcut, then
the `try`-block whose `except` returns an error result — note the source
calls `conn.close()` only on the successful path. -/
def generate_and_execute_sql (llm : Option (Except Unit String))
    (db : String → Except String (List Row)) (database_url : Option String)
    (question mode : String) (filters : List (String × FilterValue)) :
    ExecResult × ConnTrace :=
  let sql := generate_sql llm question mode filters
  match validate_sql sql with
  | some e =>
      ({ rows := [], row_count := 0, query_used := sql, mode := mode,
         error := some e }, ⟨false, false⟩)
  | none =>
    if mode == "demo" then
      ({ rows := [demoRow], row_count := 1, query_used := sql, mode := mode,
         error := none }, ⟨false, false⟩)
    else
      match database_url with
      | none =>
          ({ rows := [], row_count := 0, query_used := sql, mode := mode,
             error := some "Query execution failed: DATABASE_URL not configured" },
           ⟨false, false⟩)
      | some _ =>
        match db sql with
        | .ok fetched =>
            ({ rows := fetched, row_count := fetched.length, query_used := sql,
               mode := mode, error := none }, ⟨true, true⟩)
        | .error e =>
            ({ rows := [], row_count := 0, query_used := sql, mode := mode,
               error := some ("Query execution failed: " ++ e) },
             ⟨true, false⟩)

/-- Return shape of `format_response_with_insights`: either the basic
templated dictionary (LLM disabled, or any exception in the try-block),
or the model's parsed JSON reply `body` with `raw_data` attached.  `J` is
the type of parsed JSON documents, opaque to this layer. -/
inductive FormattedResponse (J : Type) where
  | basic (text_summary : String) (raw_data : ExecResult)
      (insights visualizations recommendations : List String)
      (error : Option String)
  | llm_formatted (body : J) (raw_data : ExecResult)

/-- `RAGSQLService.format_response_with_insights`.  `llm = none` models
`self.llm_enabled == False`; `some (.error e)` models an exception with
text `e` raised while generating or JSON-parsing the formatting reply;
`some (.ok j)` a successfully parsed reply `j`.  The prompt only feeds
the oracle and is not reproduced. -/
def format_response_with_insights {J : Type} (llm : Option (Except String J))
    (query_results : ExecResult) (_question : String) : FormattedResponse J :=
  match llm with
  | none =>
      .basic ("Query returned " ++ toString query_results.row_count ++ " results.")
        query_results [] [] [] none
  | some (.error e) =>
      .basic ("Query returned " ++ toString query_results.row_count ++ " results.")
        query_results [] [] [] (some e)
  | some (.ok j) => .llm_formatted j query_results

/-- Unfolding characterization of the substring test. -/
theorem strContains_iff (s pat : String) :
    strContains s pat = true ↔ pat.data <:+: s.data := by
  simp [strContains]

/-- A concatenation whose left part is non-empty is non-empty. -/
theorem str_append_ne_empty (a b : String) (h : a ≠ "") : a ++ b ≠ "" := by
  intro hc
  apply h
  apply String.ext
  have hd : a.data ++ b.data = [] := by
    have := congrArg String.data hc
    simpa [String.data_append] using this
  exact (List.append_eq_nil.mp hd).1

/-- An infix of `r` is an infix of `pre ++ r ++ post`. -/
theorem infix_append_of_infix {α : Type} {l r pre post : List α}
    (h : l <:+: r) : l <:+: pre ++ r ++ post := by
  obtain ⟨s, t, rfl⟩ := h
  exact ⟨pre ++ s, t ++ post, by simp⟩

/-- Every member of the joined list occurs as a substring of the join. -/
theorem mem_infix_joinSep (sep x : String) :
    ∀ l : List String, x ∈ l → x.data <:+: (joinSep sep l).data := by
  intro l
  induction l with
  | nil => intro h; cases h
  | cons y ys ih =>
    intro hx
    cases ys with
    | nil =>
      have hxy : x = y := List.mem_singleton.mp hx
      subst hxy
      exact List.infix_refl _
    | cons z zs =>
      cases List.mem_cons.mp hx with
      | inl hxy =>
        subst hxy
        show x.data <:+: (x ++ sep ++ joinSep sep (z :: zs)).data
        simp only [String.data_append]
        exact ⟨[], sep.data ++ (joinSep sep (z :: zs)).data, by simp⟩
      | inr hmem =>
        have hinf := ih hmem
        show x.data <:+: (y ++ sep ++ joinSep sep (z :: zs)).data
        simp only [String.data_append]
        obtain ⟨s, t, ht⟩ := hinf
        exact ⟨y.data ++ sep.data ++ s, t, by simp [← ht]⟩

/-- If any deny-listed keyword occurs in the lowercased text, `validate_sql`
raises, and the message names a deny-listed keyword that does occur. -/
theorem validate_rejects_of_dangerous (sql op : String)
    (hop : op ∈ dangerous_operations)
    (h : strContains (pyLower sql) op = true) :
    ∃ op2 ∈ dangerous_operations, strContains (pyLower sql) op2 = true ∧
      validate_sql sql = some ("SQL contains forbidden operation: " ++ pyUpper op2) := by
  have hsome : (dangerous_operations.find? (fun o => strContains (pyLower sql) o)).isSome = true :=
    List.find?_isSome.mpr ⟨op, hop, h⟩
  obtain ⟨op2, hfind⟩ := Option.isSome_iff_exists.mp hsome
  refine ⟨op2, List.mem_of_find?_eq_some hfind, List.find?_some hfind, ?_⟩
  simp only [validate_sql]
  rw [hfind]

/-- C1 (counterexample): the claim's deny list includes `grant`, but
`validate_sql` accepts a query containing `grant`: the source deny list
has no `grant`, `revoke` or `execute` entries. -/
theorem C1_counterexample :
    strContains (pyLower "SELECT grant_total FROM gold_vendors") "grant" = true ∧
    strContains (pyLower "REVOKE ALL ON gold_inventory FROM bob; SELECT 1") "revoke" = true ∧
    validate_sql "SELECT grant_total FROM gold_vendors" = none ∧
    validate_sql "REVOKE ALL ON gold_inventory FROM bob; SELECT 1" = none := by
  decide

/-- C1 (amended): for every SQL string containing any of the seven
deny-listed keywords drop, truncate, delete, update, alter, create,
insert — in any letter case, at any position — `validate_sql` rejects,
and the rejection reason names a forbidden operation occurring in the
string (e.g. "SQL contains forbidden operation: DELETE"); grant, revoke
and execute are not on the code's deny list. -/
theorem C1_theorem (sql op : String) (hop : op ∈ dangerous_operations)
    (h : strContains (pyLower sql) op = true) :
    ∃ op2 ∈ dangerous_operations, strContains (pyLower sql) op2 = true ∧
      validate_sql sql = some ("SQL contains forbidden operation: " ++ pyUpper op2) :=
  validate_rejects_of_dangerous sql op hop h

/-- C1 (witness): the amended theorem applied to `DROP TABLE gold_inventory`. -/
theorem C1_witness :
    "drop" ∈ dangerous_operations ∧
    strContains (pyLower "DROP TABLE gold_inventory") "drop" = true ∧
    ∃ op2 ∈ dangerous_operations,
      strContains (pyLower "DROP TABLE gold_inventory") op2 = true ∧
      validate_sql "DROP TABLE gold_inventory" =
        some ("SQL contains forbidden operation: " ++ pyUpper op2) :=
  ⟨by decide, by decide, C1_theorem "DROP TABLE gold_inventory" "drop" (by decide) (by decide)⟩

/-- C2 (counterexample): a string in which two statement terminators
appear is accepted by `validate_sql`: the source has no single-statement
rule, so acceptance does not bound the number of terminators. -/
theorem C2_counterexample :
    ("select 1; select 2; select 3".data.filter (fun c => c = Char.ofNat 59)).length = 2 ∧
    validate_sql "select 1; select 2; select 3" = none := by
  decide

/-- C2 (amended): `validate_sql` enforces no single-statement rule:
a candidate with multiple statement terminators is accepted whenever it
passes the keyword and SELECT checks, and the stacked candidate
`SELECT * FROM gold_inventory; DELETE FROM gold_inventory` is rejected
solely for the forbidden keyword DELETE, not for a multiple-statement
violation. -/
theorem C2_theorem :
    validate_sql "SELECT * FROM gold_inventory; DELETE FROM gold_inventory" =
      some "SQL contains forbidden operation: DELETE" ∧
    validate_sql "select 1; select 2; select 3;" = none := by
  decide

/-- C3 (counterexample): a string that after trimming does not begin with
SELECT is nevertheless accepted, because the source only tests that
`select` occurs somewhere in the lowercased text. -/
theorem C3_counterexample :
    ("select".data.isPrefixOf (pyLower (pyStrip "EXPLAIN SELECT 1 FROM gold_subjects")).data) = false ∧
    validate_sql "EXPLAIN SELECT 1 FROM gold_subjects" = none := by
  decide

/-- C3 (amended): `validate_sql` rejects every string that does not
contain `select` anywhere (case-insensitive) — including the empty
string — and when no deny-listed keyword occurs either, the reason is
"SQL must be a SELECT query"; acceptance requires the text to contain
the read-only keyword somewhere, not to begin with it. -/
theorem C3_theorem (sql : String)
    (h : strContains (pyLower sql) "select" = false) :
    (validate_sql sql).isSome = true ∧
    ((∀ op ∈ dangerous_operations, strContains (pyLower sql) op = false) →
      validate_sql sql = some "SQL must be a SELECT query") := by
  constructor
  · simp only [validate_sql]
    cases hfind : dangerous_operations.find? (fun o => strContains (pyLower sql) o) with
    | some op => simp
    | none => simp [h]
  · intro hall
    have hfind : dangerous_operations.find? (fun o => strContains (pyLower sql) o) = none :=
      List.find?_eq_none.mpr (by intro x hx; simp [hall x hx])
    simp only [validate_sql]
    rw [hfind]
    simp [h]

/-- C3 (witness): the amended theorem applied to the empty string. -/
theorem C3_witness :
    strContains (pyLower "") "select" = false ∧
    (validate_sql "").isSome = true ∧
    validate_sql "" = some "SQL must be a SELECT query" := by
  have h := C3_theorem "" (by decide)
  exact ⟨by decide, h.1, h.2 (by decide)⟩

/-- C10: because the deny-list check is a plain substring scan over the
lowercased text, every query mentioning the documented column
`last_updated` (which contains `update`) is rejected with a forbidden
operation reason, even if it mutates nothing. -/
theorem C10_theorem (sql : String)
    (h : strContains (pyLower sql) "last_updated" = true) :
    ∃ op ∈ dangerous_operations,
      validate_sql sql = some ("SQL contains forbidden operation: " ++ pyUpper op) := by
  have hupd : strContains (pyLower sql) "update" = true := by
    rw [strContains_iff] at h ⊢
    exact (show ("update".data <:+: "last_updated".data) by decide).trans h
  obtain ⟨op2, hmem, _, hval⟩ :=
    validate_rejects_of_dangerous sql "update" (by decide) hupd
  exact ⟨op2, hmem, hval⟩

/-- C4 (counterexample): the deterministic strategy interpolates filter
keys and values into the SQL text verbatim, with no allow-list: a
free-text key appears unchanged in the generated statement. -/
theorem C4_counterexample :
    strContains
      (generate_sql_pattern_based "inventory overview"
        [("1=1 OR site_id", FilterValue.s "x")])
      ("1=1 OR site_id = " ++ sq ++ "x" ++ sq) = true := by
  decide

/-- C4 (amended): the deterministic strategy applies every supplied
filter as an equality predicate ANDed after `1=1`, but the keys and
values are interpolated directly into `sql_text` as raw text — every
string-valued pair `(k, v)` appears verbatim as `k = 'v'` in the
generated SQL, with no allow-listed key set. -/
theorem C4_theorem (question k v : String) (fs : List (String × FilterValue))
    (h : (k, FilterValue.s v) ∈ fs) :
    strContains (generate_sql_pattern_based question fs)
      (k ++ " = " ++ sq ++ v ++ sq) = true := by
  rw [strContains_iff]
  have hmem : renderFilter (k, FilterValue.s v) ∈ "1=1" :: fs.map renderFilter :=
    List.mem_cons_of_mem _ (List.mem_map_of_mem _ h)
  have hinfix := mem_infix_joinSep " AND " _ _ hmem
  have hr : renderFilter (k, FilterValue.s v) = k ++ " = " ++ sq ++ v ++ sq := rfl
  rw [hr] at hinfix
  simp only [generate_sql_pattern_based]
  split
  · simp only [String.data_append]
    exact infix_append_of_infix hinfix
  · simp only [String.data_append]
    exact infix_append_of_infix hinfix

/-- C4 (witness): the amended theorem applied to a concrete filter pair. -/
theorem C4_witness :
    strContains
      (generate_sql_pattern_based "sites" [("site_id", FilterValue.s "SITE-001")])
      ("site_id = " ++ sq ++ "SITE-001" ++ sq) = true :=
  C4_theorem "sites" "site_id" "SITE-001" [("site_id", FilterValue.s "SITE-001")]
    (by decide)

/-- C5 (counterexample): no row ceiling is appended and no cap is
enforced by the executor: when the database yields 101 rows the returned
`row_count` is 101, above the claimed default cap of 100. -/
theorem C5_counterexample :
    ((generate_and_execute_sql none (fun _ => .ok (List.replicate 101 demoRow))
        (some "postgresql://db") "site inventory overview" "production" []).1).row_count
      = 101 ∧ ¬(101 ≤ 100) := by
  constructor
  · rfl
  · decide

/-- C5 (amended): the executor accepts no row-limit parameter and appends
no ceiling: whenever the generated statement passes validation,
`row_count` equals exactly the number of rows the database returns, no
matter how large; any bounding comes only from LIMIT clauses already
present in the generated text. -/
theorem C5_theorem (fetched : List Row) (q u : String)
    (fs : List (String × FilterValue))
    (h : validate_sql (generate_sql_pattern_based q fs) = none) :
    ((generate_and_execute_sql none (fun _ => .ok fetched) (some u)
        q "production" fs).1).row_count = fetched.length := by
  simp [generate_and_execute_sql, generate_sql, h]

/-- C5 (witness): the amended theorem applied to a one-row database. -/
theorem C5_witness :
    validate_sql (generate_sql_pattern_based "sites" []) = none ∧
    ((generate_and_execute_sql none (fun _ => .ok [demoRow]) (some "db")
        "sites" "production" []).1).row_count = 1 :=
  ⟨by decide, C5_theorem [demoRow] "sites" "db" [] (by decide)⟩

/-- C6: in every result of `generate_and_execute_sql`, a populated
`error` field forces empty `rows` and `row_count = 0`; and a
database-level failure during execution is caught and returned as
`error` (prefixed "Query execution failed: "), never propagated. -/
theorem C6_theorem :
    (∀ (llm : Option (Except Unit String)) (db : String → Except String (List Row))
        (url : Option String) (q mode : String)
        (fs : List (String × FilterValue)) (e : String),
      ((generate_and_execute_sql llm db url q mode fs).1).error = some e →
        ((generate_and_execute_sql llm db url q mode fs).1).rows = [] ∧
        ((generate_and_execute_sql llm db url q mode fs).1).row_count = 0) ∧
    (∀ (llm : Option (Except Unit String)) (db : String → Except String (List Row))
        (u q : String) (fs : List (String × FilterValue)) (e : String),
      validate_sql (generate_sql llm q "production" fs) = none →
      db (generate_sql llm q "production" fs) = .error e →
        ((generate_and_execute_sql llm db (some u) q "production" fs).1).error =
          some ("Query execution failed: " ++ e)) := by
  constructor
  · intro llm db url q mode fs e
    simp only [generate_and_execute_sql]
    split
    · intro _; exact ⟨rfl, rfl⟩
    · split
      · intro h; cases h
      · split
        · intro _; exact ⟨rfl, rfl⟩
        · split
          · intro h; cases h
          · intro _; exact ⟨rfl, rfl⟩
  · intro llm db u q fs e h1 h2
    simp [generate_and_execute_sql, h1, h2]

/-- C6 (witness): both parts applied to a database that raises. -/
theorem C6_witness :
    ((generate_and_execute_sql none (fun _ => .error "boom") (some "db")
        "sites" "production" []).1).error = some "Query execution failed: boom" ∧
    ((generate_and_execute_sql none (fun _ => .error "boom") (some "db")
        "sites" "production" []).1).rows = [] ∧
    ((generate_and_execute_sql none (fun _ => .error "boom") (some "db")
        "sites" "production" []).1).row_count = 0 := by
  have h2 := C6_theorem.2 none (fun _ => .error "boom") "db" "sites" []
    "boom" (by decide) rfl
  have h1 := C6_theorem.1 none (fun _ => .error "boom") (some "db")
    "sites" "production" [] "Query execution failed: boom" h2
  exact ⟨h2, h1⟩

/-- C7 (counterexample): an empty completion from the model stage is not
treated as a failure: the cleaned empty text is returned as-is, so
`sql_text` can be empty — the claimed totality of non-empty output fails. -/
theorem C7_counterexample :
    generate_sql (some (.ok "")) "how many sites" "production" [] = "" := by
  decide

/-- C7 (amended): generation never raises, and returns a non-empty
`sql_text` whenever the mode is demo, the model stage is disabled, or
the model call raises (exception or timeout): those paths use the
canned demo query or the deterministic pattern-based strategy, both
always non-empty.  An empty successful completion, however, is returned
as-is, not treated as a failure. -/
theorem C7_theorem (llm : Option (Except Unit String)) (q mode : String)
    (fs : List (String × FilterValue))
    (h : mode = "demo" ∨ llm = none ∨ llm = some (.error ())) :
    generate_sql llm q mode fs ≠ "" := by
  have hdemo : generate_demo_sql q fs ≠ "" := by
    simp only [generate_demo_sql]
    repeat' apply str_append_ne_empty
    decide
  have hpat : generate_sql_pattern_based q fs ≠ "" := by
    simp only [generate_sql_pattern_based]
    split
    · exact str_append_ne_empty _ _ (str_append_ne_empty _ _ (by decide))
    · exact str_append_ne_empty _ _ (str_append_ne_empty _ _ (by decide))
  rcases h with h | h | h
  · subst h
    simp only [generate_sql]
    split
    · exact hdemo
    · next hfalse => exact absurd rfl hfalse
  · subst h
    simp only [generate_sql]
    split
    · exact hdemo
    · exact hpat
  · subst h
    simp only [generate_sql]
    split
    · exact hdemo
    · exact hpat

/-- C7 (witness): the amended theorem with the model stage disabled. -/
theorem C7_witness :
    (("production" : String) = "demo" ∨ (none : Option (Except Unit String)) = none ∨
      (none : Option (Except Unit String)) = some (.error ())) ∧
    generate_sql none "how many sites" "production" [] ≠ "" :=
  ⟨Or.inr (Or.inl rfl),
   C7_theorem none "how many sites" "production" [] (Or.inr (Or.inl rfl))⟩

/-- C8: at a concrete failing input (production mode, DATABASE_URL set,
the fetch raising a database error) the connection is opened but never
closed — the source has no try/finally around the fetch, so the error
path skips `conn.close()` — while the success path does close it. -/
theorem C8_theorem :
    ((generate_and_execute_sql none (fun _ => .error "column does not exist")
        (some "postgresql://db") "list all sites" "production" []).2) =
      ⟨true, false⟩ ∧
    ((generate_and_execute_sql none (fun _ => .ok [])
        (some "postgresql://db") "list all sites" "production" []).2) =
      ⟨true, true⟩ := by
  decide

/-- C9: when the model service is disabled, or the formatting reply
raises or cannot be parsed, `format_response_with_insights` still
returns the templated response: a non-empty summary derived purely from
`row_count`, with empty insights, visualizations and recommendations;
the stage is total and never fails the request. -/
theorem C9_theorem (J : Type) (qr : ExecResult) (q : String) :
    format_response_with_insights (J := J) none qr q =
      .basic ("Query returned " ++ toString qr.row_count ++ " results.")
        qr [] [] [] none ∧
    (∀ e : String, format_response_with_insights (J := J) (some (.error e)) qr q =
      .basic ("Query returned " ++ toString qr.row_count ++ " results.")
        qr [] [] [] (some e)) ∧
    ("Query returned " ++ toString qr.row_count ++ " results.") ≠ "" := by
  refine ⟨rfl, fun e => rfl, ?_⟩
  exact str_append_ne_empty _ _ (str_append_ne_empty _ _ (by decide))

/-- C10 (witness): a read-only SELECT over the schema's own
`last_updated` column is rejected. -/
theorem C10_witness :
    strContains (pyLower "SELECT site_id, last_updated FROM gold_inventory") "last_updated" = true ∧
    ∃ op ∈ dangerous_operations,
      validate_sql "SELECT site_id, last_updated FROM gold_inventory" =
        some ("SQL contains forbidden operation: " ++ pyUpper op) :=
  ⟨by decide, C10_theorem "SELECT site_id, last_updated FROM gold_inventory" (by decide)⟩

end RagSql
